import Mathlib

/-!
Verification of the gita-gpt conversational backend.

Shallow embedding of the Python services in Lean 4:

* `EmotionDetection` — `src/server/app/services/emotion_detection.py`
* `VectorSearch` — `src/client/backend/app/services/vector_search.py`
* `Chat` — the orchestrator in `src/client/backend/app/api/chat.py`
* `ConversationStore` — `src/server/app/services/conversation_manager.py`
* `Logging` — `src/client/backend/app/services/logging_service.py`

External black boxes (the transformer classifier, the Chroma index, the
Gemini generative backend, the SQL database) are modelled as explicit
parameters: either `Except Unit α` values standing for "the call returned
`α` or raised", or plain lists standing for the table contents.  Python
floats are modelled as `ℚ`; timestamps, ids and calendar dates as `ℕ`.
-/

namespace EmotionDetection

/-- One entry of the list returned by `detect_emotion`
(a Python dict with keys label/confidence/emoji/color). -/
structure EmotionEntry where
  label : String
  confidence : ℚ
  emoji : String
  color : String
deriving Repr, DecidableEq

instance : Inhabited EmotionEntry := ⟨⟨"", 0, "", ""⟩⟩

/-- `self.emotion_emoji_map` — the fixed label → (emoji, color) table
for all 28 GoEmotions labels. -/
def emotionEmojiMap : List (String × String × String) := [
  ("joy", "😊", "#FEF3C7"),
  ("admiration", "🤩", "#FEF3C7"),
  ("approval", "👍", "#D1FAE5"),
  ("gratitude", "🙏", "#FEF3C7"),
  ("love", "❤️", "#FECACA"),
  ("optimism", "😊", "#D1FAE5"),
  ("caring", "🤗", "#D1FAE5"),
  ("excitement", "🎉", "#FEF3C7"),
  ("amusement", "😄", "#FEF3C7"),
  ("pride", "😌", "#FEF3C7"),
  ("relief", "😌", "#D1FAE5"),
  ("desire", "🤔", "#E0E7FF"),
  ("realization", "💡", "#FEF3C7"),
  ("curiosity", "🤔", "#E0E7FF"),
  ("neutral", "😐", "#F3F4F6"),
  ("sadness", "😢", "#DBEAFE"),
  ("disappointment", "😞", "#DBEAFE"),
  ("grief", "😭", "#DBEAFE"),
  ("remorse", "😔", "#DBEAFE"),
  ("embarrassment", "😳", "#FEE2E2"),
  ("anger", "😠", "#FEE2E2"),
  ("annoyance", "😒", "#FEE2E2"),
  ("disapproval", "👎", "#FEE2E2"),
  ("disgust", "🤢", "#FEE2E2"),
  ("fear", "😰", "#EDE9FE"),
  ("nervousness", "😰", "#E0E7FF"),
  ("confusion", "😕", "#F3F4F6"),
  ("surprise", "😲", "#E0E7FF")]

/-- `self.emotion_emoji_map.get(label, {"emoji": "😐", "color": "#F3F4F6"})`. -/
def lookupMeta (label : String) : String × String :=
  match emotionEmojiMap.find? (fun p => p.1 == label) with
  | some p => (p.2.1, p.2.2)
  | none => ("😐", "#F3F4F6")

/-- The synthetic neutral fallback entry. -/
def neutralEntry : EmotionEntry :=
  { label := "neutral", confidence := 1/2, emoji := "😐", color := "#F3F4F6" }

/-- Python `round(score, 3)` (half-way rounding mode is irrelevant to every
property proved here). -/
def round3 (q : ℚ) : ℚ := (round (q * 1000) : ℤ) / 1000

/-- The comparison used by `emotions.sort(key=lambda x: x['confidence'],
reverse=True)` (a stable descending sort on the rounded confidence). -/
def confDesc (a b : EmotionEntry) : Prop := b.confidence ≤ a.confidence

instance : DecidableRel confDesc := fun a b =>
  inferInstanceAs (Decidable (b.confidence ≤ a.confidence))

instance : IsTotal EmotionEntry confDesc :=
  ⟨fun a b => le_total b.confidence a.confidence⟩

instance : IsTrans EmotionEntry confDesc :=
  ⟨fun _ _ _ h1 h2 => le_trans h2 h1⟩

/-- `detect_emotion(text, threshold)`.  The external classifier call
`self.classifier([text])[0]` is the `classifierResult` parameter: a list of
(label, score) pairs, or an exception. -/
def detect_emotion (classifierResult : Except Unit (List (String × ℚ)))
    (threshold : ℚ) : List EmotionEntry :=
  match classifierResult with
  | .error _ => [neutralEntry]
  | .ok results =>
    let emotions := results.filterMap (fun r =>
      if threshold ≤ r.2 then
        some { label := r.1, confidence := round3 r.2,
               emoji := (lookupMeta r.1).1, color := (lookupMeta r.1).2 }
      else none)
    let sorted := List.insertionSort confDesc emotions
    if sorted.isEmpty then [neutralEntry] else sorted

/-- `get_dominant_emotion(emotions)`. -/
def get_dominant_emotion (emotions : List EmotionEntry) : EmotionEntry :=
  match emotions with
  | [] => neutralEntry
  | e :: _ => e

end EmotionDetection

namespace VectorSearch

/-- The metadata stored for one verse in the Chroma collection
(`initialize_database` stores id, chapter, verse, shloka, transliteration,
eng_meaning, hin_meaning, word_meaning). -/
structure VerseMeta where
  id : String
  chapter : ℕ
  verse : ℕ
  shloka : String
  transliteration : String
  eng_meaning : String
  hin_meaning : String
  word_meaning : String
deriving Repr, DecidableEq

/-- One element of the list returned by `search_verses`: the metadata plus
the similarity score derived from the backend distance. -/
structure VerseSearchResult where
  meta : VerseMeta
  similarity_score : ℚ
deriving Repr, DecidableEq

instance : Inhabited VerseMeta := ⟨⟨"", 0, 0, "", "", "", "", ""⟩⟩

instance : Inhabited VerseSearchResult := ⟨⟨default, 0⟩⟩

/-- The descending-similarity order used by `_rerank_by_emotion`. -/
def simDesc (a b : VerseSearchResult) : Prop :=
  b.similarity_score ≤ a.similarity_score

instance : DecidableRel simDesc := fun a b =>
  inferInstanceAs (Decidable (b.similarity_score ≤ a.similarity_score))

instance : IsTotal VerseSearchResult simDesc :=
  ⟨fun a b => le_total b.similarity_score a.similarity_score⟩

instance : IsTrans VerseSearchResult simDesc :=
  ⟨fun _ _ _ h1 h2 => le_trans h2 h1⟩

/-- `_rerank_by_emotion(verses, emotion)` — by design currently a plain
stable descending sort on `similarity_score` (theme metadata is not stored
in the index). -/
def rerank_by_emotion (verses : List VerseSearchResult) (_emotion : String) :
    List VerseSearchResult :=
  List.insertionSort simDesc verses

/-- `search_verses(query, emotion, top_k)`.  The Chroma query
`self.collection.query(...)` is the `backend` parameter: a ranked list of
(metadata, distance) pairs, or an exception.  On any backend error the
method returns `[]`. -/
def search_verses (backend : Except Unit (List (VerseMeta × ℚ)))
    (emotion : Option String) (top_k : ℕ) : List VerseSearchResult :=
  match backend with
  | .error _ => []
  | .ok hits =>
    let verses := hits.map (fun h =>
      { meta := h.1, similarity_score := 1 - h.2 })
    let verses := match emotion with
      | some e => rerank_by_emotion verses e
      | none => verses
    verses.take top_k

/-- `get_verse_by_id(verse_id)`.  The Chroma lookup
`self.collection.get(ids=[verse_id])` is the `backend` parameter: the list
of metadata records found for the id (empty when the id is unknown), or an
exception.  On any backend error the method returns `None`. -/
def get_verse_by_id (backend : Except Unit (List VerseMeta)) : Option VerseMeta :=
  match backend with
  | .error _ => none
  | .ok metas =>
    match metas with
    | [] => none
    | m :: _ => some m

end VectorSearch

namespace Chat

open EmotionDetection VectorSearch

/-- The request body of `POST /chat` (after FastAPI field validation:
`user_input` is 1–5000 characters). -/
structure ChatRequest where
  user_input : String
  session_id : Option ℕ
  interaction_mode : String
deriving Repr, DecidableEq

/-- One message of the loaded conversation context. -/
structure HistMsg where
  role : String
  content : String
deriving Repr, DecidableEq

/-- The response body of `POST /chat`. -/
structure ChatResponse where
  reflection : String
  emotion : EmotionEntry
  verses : List VerseSearchResult
  session_id : ℕ
  interaction_mode : String
  fallback_used : Bool
deriving Repr, DecidableEq

/-- The environment of one request: the outcome of every external call the
orchestrator makes.  `generationResult` takes the conversation history that
was passed to `generate_reflection`, so theorems can observe which history
the generation stage received. -/
structure ChatEnv where
  emotionResult : Except Unit EmotionEntry
  retrievalBackend : Except Unit (List (VerseMeta × ℚ))
  getContextResult : Except Unit (List HistMsg)
  createSessionResult : Except Unit ℕ
  freshUuid : ℕ
  generationResult : List HistMsg → Except Unit String
  fallbackGenResult : Except Unit String

/-- The fixed default verse substituted when verse search fails
(BG2.47, `chat.py` lines 205–214). -/
def defaultVerse : VerseSearchResult :=
  { meta :=
      { id := "BG2.47", chapter := 2, verse := 47,
        shloka := "कर्मण्येवाधिकारस्ते मा फलेषु कदाचन। मा कर्मफलहेतुर्भूर्मा ते सङ्गोऽस्त्वकर्मणि॥",
        transliteration := "karmaṇy-evādhikāras te mā phaleṣhu kadāchana mā karma-phala-hetur bhūr mā te saṅgo 'stv akarmaṇi",
        eng_meaning := "You have a right to perform your prescribed duty, but not to the fruits of action. Never consider yourself the cause of the results of your activities, and never be attached to not doing your duty.",
        hin_meaning := "तुम्हारा अधिकार केवल कर्म करने में है, फल में नहीं। इसलिए तुम कर्म के फल के हेतु मत बनो और न ही तुम्हारी अकर्म में आसक्ति हो।",
        word_meaning := "" },
    similarity_score := 1/2 }

/-- The neutral emotion used by the chat endpoint when emotion detection
raises. -/
def chatNeutralEmotion : EmotionEntry :=
  { label := "neutral", confidence := 1/2, emoji := "😐", color := "#F3F4F6" }

/-- The valid interaction modes. -/
def validModes : List String := ["socratic", "wisdom", "story"]

/-- Step 3 of the orchestrator ("Handle conversation session",
`chat.py` lines 216–267): resolve the (session id, conversation history,
fallback flag) triple.  `fb` is the incoming `fallback_used` flag. -/
def resolveSession (req : ChatRequest) (env : ChatEnv) (fb : Bool) :
    ℕ × List HistMsg × Bool :=
  match req.session_id with
  | some sid =>
    -- existing session: try to load context; on failure keep the provided
    -- id, use an empty history, and leave the fallback flag unchanged
    match env.getContextResult with
    | .ok msgs => (sid, msgs, fb)
    | .error _ => (sid, [], fb)
  | none =>
    -- new session: try to create one; on failure use a fresh uuid, an empty
    -- history, and set the fallback flag
    match env.createSessionResult with
    | .ok s => (s, [], fb)
    | .error _ => (env.freshUuid, [], true)

/-- The last-resort reflection template (`chat.py` lines 293–301), used when
both the Gemini call and the template fallback raise. -/
def lastResortReflection (emotionLabel : String) (v : VerseSearchResult) : String :=
  "I understand you're experiencing " ++ emotionLabel ++
  ". Here's a verse that may provide guidance:\n\n**Verse " ++
  toString v.meta.chapter ++ "." ++ toString v.meta.verse ++
  ":**\n\nSanskrit: " ++ v.meta.shloka ++ "\n\nEnglish: " ++ v.meta.eng_meaning ++
  "\n\nThis ancient wisdom reminds us that we can find peace and clarity even in challenging times. Take a moment to reflect on how this teaching might apply to your current situation."

/-- Step 4 of the orchestrator ("Generate reflection", `chat.py` lines
269–301): Gemini, then the template fallback, then the hardcoded last
resort.  Returns the reflection text and the updated fallback flag. -/
def generateStep (env : ChatEnv) (history : List HistMsg)
    (emotion : EmotionEntry) (verses : List VerseSearchResult) (fb : Bool) :
    String × Bool :=
  match env.generationResult history with
  | .ok t => (t, fb)
  | .error _ =>
    match env.fallbackGenResult with
    | .ok t => (t, true)
    | .error _ => (lastResortReflection emotion.label verses.headI, true)

/-- The `chat` orchestrator (`POST /chat`, `chat.py` lines 109–367).
Returns `.error 400` on an invalid interaction mode, otherwise the
assembled `ChatResponse`.  The persistence steps 5–7 (store user message,
store assistant message, mood log) swallow their failures and do not affect
the response, so they carry no observable state here. -/
def chat (req : ChatRequest) (env : ChatEnv) : Except ℕ ChatResponse :=
  if req.interaction_mode ∈ validModes then
    -- Step 1: detect emotion, neutral fallback on failure
    let (emotion, fb1) : EmotionEntry × Bool :=
      match env.emotionResult with
      | .ok e => (e, false)
      | .error _ => (chatNeutralEmotion, true)
    -- Step 2: search verses; on an empty result or an exception substitute
    -- the fixed default verse and set the fallback flag
    let found := search_verses env.retrievalBackend (some emotion.label) 3
    let (verses, fb2) : List VerseSearchResult × Bool :=
      match found with
      | [] => ([defaultVerse], true)
      | v :: vs => (v :: vs, fb1)
    -- Step 3: resolve the session
    let (sessionId, history, fb3) := resolveSession req env fb2
    -- Step 4: generate the reflection
    let (reflection, fb4) := generateStep env history emotion verses fb3
    .ok { reflection := reflection, emotion := emotion, verses := verses,
          session_id := sessionId, interaction_mode := req.interaction_mode,
          fallback_used := fb4 }
  else
    .error 400

/-- A small verse metadata record used to instantiate theorems at concrete
inputs. -/
def sampleMeta : VectorSearch.VerseMeta :=
  { id := "BG1.1", chapter := 1, verse := 1, shloka := "श्लोक",
    transliteration := "t", eng_meaning := "e", hin_meaning := "h",
    word_meaning := "w" }

/-- A concrete request with a provided session id. -/
def cexReq : ChatRequest :=
  { user_input := "hello", session_id := some 7,
    interaction_mode := "wisdom" }

/-- A concrete environment where loading the conversation context for the
provided session id fails and every other dependency succeeds. -/
def cexEnv : ChatEnv :=
  { emotionResult := Except.ok
      { label := "joy", confidence := 8/10,
        emoji := "😊", color := "#FEF3C7" },
    retrievalBackend := Except.ok [(sampleMeta, 1/10)],
    getContextResult := Except.error (),
    createSessionResult := Except.ok 99,
    freshUuid := 55,
    generationResult := fun _ => Except.ok "a reflection",
    fallbackGenResult := Except.ok "a fallback reflection" }

end Chat

namespace ConversationStore

/-- The optional `emotion_data` dict passed to `add_message`
(each field read with `.get(...)`, so each may be absent). -/
structure EmotionSnapshot where
  label : Option String
  confidence : Option ℚ
  emoji : Option String
  color : Option String
deriving Repr, DecidableEq

/-- A row of the `conversation_sessions` table. -/
structure StoredSession where
  id : ℕ
  user_id : ℕ
  interaction_mode : String
  started_at : ℕ
  ended_at : Option ℕ
  summary : Option String
  message_count : ℕ
deriving Repr, DecidableEq

/-- A row of the `conversation_messages` table. -/
structure StoredMessage where
  session_id : ℕ
  role : String
  content : String
  emotion_label : Option String
  emotion_confidence : Option ℚ
  emotion_emoji : Option String
  emotion_color : Option String
  verse_id : Option String
  sequence_number : ℕ
  created_at : ℕ
deriving Repr, DecidableEq

/-- The database state seen by `ConversationManager`. -/
structure DBState where
  sessions : List StoredSession
  messages : List StoredMessage
deriving Repr, DecidableEq

/-- The two `ValueError` shapes the manager raises, distinguished in Python
only by their message text ("... not found" vs "... is already ended"). -/
inductive CMError where
  | notFound
  | alreadyEnded
deriving Repr, DecidableEq

/-- `self.db.query(ConversationSession).filter(id == session_id).first()`. -/
def findSession (st : DBState) (sid : ℕ) : Option StoredSession :=
  st.sessions.find? (fun s => s.id == sid)

/-- The messages of one session (the base query both `add_message` and
`get_context` filter on). -/
def sessionMessages (st : DBState) (sid : ℕ) : List StoredMessage :=
  st.messages.filter (fun m => m.session_id == sid)

/-- `order_by(desc(sequence_number)).first()` followed by
`(last.sequence_number + 1) if last else 1`, i.e. one more than the maximum
sequence number, with the maximum over no messages read as 0. -/
def lastSequenceNumber (st : DBState) (sid : ℕ) : ℕ :=
  (sessionMessages st sid).foldl (fun a m => max a m.sequence_number) 0

/-- The `ConversationMessage(...)` row built by `add_message`. -/
def newMessage (st : DBState) (sid : ℕ) (role : String) (content : String)
    (emotion_data : Option EmotionSnapshot) (verse_id : Option String)
    (now : ℕ) : StoredMessage :=
  { session_id := sid, role := role, content := content,
    emotion_label := emotion_data.bind (fun e => e.label),
    emotion_confidence := emotion_data.bind (fun e => e.confidence),
    emotion_emoji := emotion_data.bind (fun e => e.emoji),
    emotion_color := emotion_data.bind (fun e => e.color),
    verse_id := verse_id,
    sequence_number := lastSequenceNumber st sid + 1,
    created_at := now }

/-- The committed state after `add_message`: the row is inserted and the
session's `message_count` is incremented in the same commit. -/
def insertMessage (st : DBState) (sid : ℕ) (msg : StoredMessage) : DBState :=
  { sessions := st.sessions.map (fun s =>
      if s.id == sid then { s with message_count := s.message_count + 1 }
      else s),
    messages := st.messages ++ [msg] }

/-- `add_message(session_id, role, content, emotion_data, verse_id)`.
Fails when the session is unknown; otherwise inserts the message with the
next sequence number and increments the session's denormalized
`message_count` in the same commit.  Note: the source does NOT check
`ended_at` here. -/
def add_message (st : DBState) (sid : ℕ) (role : String) (content : String)
    (emotion_data : Option EmotionSnapshot) (verse_id : Option String)
    (now : ℕ) : Except CMError (StoredMessage × DBState) :=
  match findSession st sid with
  | none => .error .notFound
  | some _ =>
    let msg := newMessage st sid role content emotion_data verse_id now
    .ok (msg, insertMessage st sid msg)

/-- `self.memory_window = 5`. -/
def memory_window : ℕ := 5

/-- The descending-sequence order of
`order_by(desc(ConversationMessage.sequence_number))`. -/
def seqDesc (a b : StoredMessage) : Prop :=
  b.sequence_number ≤ a.sequence_number

instance : DecidableRel seqDesc := fun a b =>
  inferInstanceAs (Decidable (b.sequence_number ≤ a.sequence_number))

instance : IsTotal StoredMessage seqDesc :=
  ⟨fun a b => Nat.le_total b.sequence_number a.sequence_number⟩

instance : IsTrans StoredMessage seqDesc :=
  ⟨fun _ _ _ h1 h2 => le_trans h2 h1⟩

/-- The payload of `ConversationContextResponse`. -/
structure ContextResponse where
  session_id : ℕ
  messages : List StoredMessage
  total_messages : ℕ
deriving Repr, DecidableEq

/-- `get_context(session_id, window_size)`: the most recent `window_size`
messages by sequence number (default `memory_window * 2`), reversed to
chronological order, plus the full message count. -/
def get_context (st : DBState) (sid : ℕ) (window_size : Option ℕ) :
    Except CMError ContextResponse :=
  match findSession st sid with
  | none => .error .notFound
  | some _ =>
    let ws := window_size.getD (memory_window * 2)
    let recent :=
      ((List.insertionSort seqDesc (sessionMessages st sid)).take ws).reverse
    .ok { session_id := sid, messages := recent,
          total_messages := (sessionMessages st sid).length }

/-- `end_session(session_id, summary)`: fails when the session is unknown
or already ended; otherwise sets `ended_at` and (when the summary is a
non-empty string — Python `if summary:`) the summary. -/
def end_session (st : DBState) (sid : ℕ) (summary : Option String)
    (now : ℕ) : Except CMError (StoredSession × DBState) :=
  match findSession st sid with
  | none => .error .notFound
  | some s =>
    match s.ended_at with
    | some _ => .error .alreadyEnded
    | none =>
      let s' : StoredSession :=
        { s with
          ended_at := some now,
          summary := match summary with
            | some txt => if txt == "" then s.summary else some txt
            | none => s.summary }
      .ok (s', { st with sessions := st.sessions.map (fun t =>
            if t.id == sid then s' else t) })

/-- Sequentially append a list of (role, content) messages, stopping at the
first error (the driver used to state the N-messages property of C3). -/
def addMessages (st : DBState) (sid : ℕ) (items : List (String × String))
    (now : ℕ) : Except CMError DBState :=
  match items with
  | [] => .ok st
  | (r, c) :: rest =>
    match add_message st sid r c none none now with
    | .error e => .error e
    | .ok (_, st') => addMessages st' sid rest (now + 1)

/-- A concrete one-session database used to instantiate the store theorems. -/
def sampleDB : DBState :=
  { sessions :=
      [{ id := 1, user_id := 10, interaction_mode := "wisdom",
         started_at := 0, ended_at := none, summary := none,
         message_count := 0 }],
    messages := [] }

/-- A message with no emotion snapshot, used to instantiate theorems. -/
def plainMsg (sid seq t : ℕ) (role content : String) : StoredMessage :=
  { session_id := sid, role := role, content := content,
    emotion_label := none, emotion_confidence := none,
    emotion_emoji := none, emotion_color := none, verse_id := none,
    sequence_number := seq, created_at := t }

/-- A one-session database holding three messages, used to instantiate the
window theorem. -/
def sampleDB2 : DBState :=
  { sessions :=
      [{ id := 1, user_id := 10, interaction_mode := "wisdom",
         started_at := 0, ended_at := none, summary := none,
         message_count := 3 }],
    messages := [plainMsg 1 1 10 "user" "hi",
                 plainMsg 1 2 11 "assistant" "om",
                 plainMsg 1 3 12 "user" "ok"] }

end ConversationStore

namespace ReflectionGeneration

/-- The two exception shapes of `generate_reflection`: the input-validation
`ValueError`s raised before any backend call, and the `Exception("Gemini
API error: ...")` re-raised when the backend call fails. -/
inductive ReflectionError where
  | valueError (msg : String)
  | apiError (msg : String)
deriving Repr, DecidableEq

/-- The keys of `self.prompts` (the three fixed interaction modes). -/
def promptModes : List String := ["socratic", "wisdom", "story"]

/-- One verse dict as consumed by the reflection service.  `engMeaning`
models the value of `verse.get('engMeaning', '')` read by the fallback
template. -/
structure VerseDict where
  chapter : ℕ
  verse : ℕ
  shloka : String
  engMeaning : String
deriving Repr, DecidableEq

/-- `generate_reflection(user_input, emotion_data, verses,
interaction_mode, conversation_history)`.  The Gemini call
`self.model.generate_content(prompt).text` is the `backendResponse`
parameter (an empty string models a falsy `response.text`).  Prompt
construction (`_build_prompt`) is pure string formatting and cannot raise,
so it is not modelled.  Both validation checks run before the backend is
consulted; a backend failure is re-raised, never absorbed. -/
def generate_reflection (user_input : String) (emotionLabel : String)
    (emotionConfidence : ℚ) (verses : List VerseDict)
    (interaction_mode : String) (history : List (String × String))
    (backendResponse : Except Unit String) : Except ReflectionError String :=
  if interaction_mode ∈ promptModes then
    if verses = [] then
      .error (.valueError
        "At least one verse is required for reflection generation")
    else
      match backendResponse with
      | .error _ => .error (.apiError "Gemini API error")
      | .ok t =>
        if t = "" then
          .error (.apiError "Gemini API error: Empty response from Gemini API")
        else .ok t.trim
  else
    .error (.valueError ("Invalid interaction mode: " ++ interaction_mode ++
      ". Must be one of: ['socratic', 'wisdom', 'story']"))

/-- `generate_fallback_reflection(user_input, emotion_data, verses)` — a
pure template over the FIRST candidate verse and the emotion label
(`emotion_data.get("label", "seeking")`); it takes no backend parameter
because it makes no model call.  (`user_input` is accepted but unused by
the template, exactly as in the source.) -/
def generate_fallback_reflection (user_input : String)
    (emotionLabel : Option String) (verses : List VerseDict) : String :=
  match verses with
  | [] => "I understand you're seeking guidance. While I'm having technical difficulties, please know that every challenge is an opportunity for growth and self-reflection."
  | v :: _ =>
    "I sense you're feeling " ++ emotionLabel.getD "seeking" ++
    ", and I want you to know that your feelings are valid.\n\n**Verse " ++
    toString v.chapter ++ "." ++ toString v.verse ++ ":**\n\nSanskrit: " ++
    v.shloka ++ "\n\nEnglish: " ++ v.engMeaning ++
    "\n\nThis ancient wisdom reminds us that all emotions are temporary and serve as teachers on our spiritual journey. The Bhagavad Gita teaches us to observe our feelings with compassion while staying connected to our deeper purpose.\n\nTake a moment to breathe deeply and reflect on how this verse might offer guidance for your current situation."

/-- A concrete verse dict used to instantiate the reflection theorems. -/
def sampleVerseDict : VerseDict :=
  { chapter := 2, verse := 47, shloka := "श्लोक", engMeaning := "meaning" }

end ReflectionGeneration

namespace Logging

/-- A row of the `emotion_logs` table.  `log_date` is a calendar-day
number (consecutive integers are consecutive days), `created_at` a
creation timestamp.  The nullable `verse_ids` column is read through
`log.verse_ids or []`, so it is modelled as a plain list. -/
structure EmotionLog where
  user_id : ℕ
  log_date : ℕ
  created_at : ℕ
  user_input : String
  dominant_emotion : String
  emotion_confidence : ℚ
  emotion_emoji : String
  emotion_color : String
  all_emotions : List (String × ℚ)
  verse_ids : List String
  session_id : Option ℕ
deriving Repr, DecidableEq

/-- `ORDER BY log_date DESC, created_at DESC`. -/
def logDesc (a b : EmotionLog) : Prop :=
  b.log_date < a.log_date ∨
    (b.log_date = a.log_date ∧ b.created_at ≤ a.created_at)

instance : DecidableRel logDesc := fun a b =>
  inferInstanceAs (Decidable (_ ∨ _))

instance : IsTotal EmotionLog logDesc :=
  ⟨fun a b => by unfold logDesc; omega⟩

instance : IsTrans EmotionLog logDesc :=
  ⟨fun a b c h1 h2 => by unfold logDesc at h1 h2 ⊢; omega⟩

/-- The per-day accumulator value of `daily_emotions[log_date]`. -/
structure DayData where
  emotion : String
  emoji : String
  color : String
  confidence : ℚ
  verse_ids : List String
  user_input : String
  all_emotions : List (String × ℚ)
deriving Repr, DecidableEq

/-- `list(set(a).union(set(b)))` — pure set semantics; Python leaves the
element order unspecified, modelled as dedup of the concatenation. -/
def listSetUnion (a b : List String) : List String := (a ++ b).dedup

/-- The Python dict-upsert loop shared by the grouping passes of this
service (`daily_emotions` in `get_mood_data`, `Counter`, and the
weekday `defaultdict`): iterate the items, installing `init it` the first
time a key is seen and folding `upd it` into the stored value on every
later sighting; insertion order of keys is preserved, as Python dicts do. -/
def upsertFold {ι κ ν : Type} [BEq κ] (key : ι → κ) (init : ι → ν)
    (upd : ι → ν → ν) (l : List ι) : List (κ × ν) :=
  l.foldl (fun acc it =>
    if acc.any (fun p => p.1 == key it) then
      acc.map (fun p => if p.1 == key it then (p.1, upd it p.2) else p)
    else acc ++ [(key it, init it)]) []

/-- The `DayData` created when a date is first seen (the most recent log of
that day, since iteration is in (date desc, created_at desc) order). -/
def initDayData (log : EmotionLog) : DayData :=
  { emotion := log.dominant_emotion, emoji := log.emotion_emoji,
    color := log.emotion_color, confidence := log.emotion_confidence,
    verse_ids := log.verse_ids, user_input := log.user_input,
    all_emotions := log.all_emotions }

/-- The `for log in emotion_logs:` grouping loop of `get_mood_data`:
first sighting of a date installs `initDayData`; later sightings only
merge `verse_ids` as a set union. -/
def dailyFold (logs : List EmotionLog) : List (ℕ × DayData) :=
  upsertFold (fun log => log.log_date) initDayData
    (fun log v => { v with
      verse_ids := listSetUnion v.verse_ids log.verse_ids }) logs

/-- One mood-calendar entry. -/
structure MoodCalendarEntry where
  date : ℕ
  emotion : String
  emoji : String
  color : String
  confidence : ℚ
  verse_ids : List String
  summary : String
  all_emotions : List (String × ℚ)
deriving Repr, DecidableEq

/-- `user_input[:100] + "..." if len(user_input) > 100 else user_input`. -/
def mkSummary (s : String) : String :=
  if 100 < s.length then s.take 100 ++ "..." else s

/-- `mood_entries.sort(key=lambda x: x.date, reverse=True)`. -/
def entryDateDesc (a b : MoodCalendarEntry) : Prop := b.date ≤ a.date

instance : DecidableRel entryDateDesc := fun a b =>
  inferInstanceAs (Decidable (b.date ≤ a.date))

instance : IsTotal MoodCalendarEntry entryDateDesc :=
  ⟨fun a b => Nat.le_total b.date a.date⟩

instance : IsTrans MoodCalendarEntry entryDateDesc :=
  ⟨fun _ _ _ h1 h2 => le_trans h2 h1⟩

/-- The rows `get_mood_data` queries: the user's logs within the date
range. -/
def moodLogs (db : List EmotionLog) (uid start_date end_date : ℕ) :
    List EmotionLog :=
  db.filter (fun l => l.user_id == uid &&
    decide (start_date ≤ l.log_date) && decide (l.log_date ≤ end_date))

/-- The entry built from one accumulator pair. -/
def mkEntry (p : ℕ × DayData) : MoodCalendarEntry :=
  { date := p.1, emotion := p.2.emotion, emoji := p.2.emoji,
    color := p.2.color, confidence := p.2.confidence,
    verse_ids := p.2.verse_ids, summary := mkSummary p.2.user_input,
    all_emotions := p.2.all_emotions }

/-- `get_mood_data(user_id, start_date, end_date)`. -/
def get_mood_data (db : List EmotionLog) (uid start_date end_date : ℕ) :
    List MoodCalendarEntry :=
  let sortedLogs := List.insertionSort logDesc (moodLogs db uid start_date end_date)
  List.insertionSort entryDateDesc ((dailyFold sortedLogs).map mkEntry)

/-- `log.log_date.strftime('%A')`: the weekday names, indexed by the day
number modulo 7. -/
def weekdayNames : List String :=
  ["Monday", "Tuesday", "Wednesday", "Thursday", "Friday", "Saturday",
   "Sunday"]

def weekdayName (d : ℕ) : String := weekdayNames.getD (d % 7) ""

/-- `collections.Counter(...)` over a list of labels, preserving
first-occurrence order (Python dicts preserve insertion order). -/
def counter (xs : List String) : List (String × ℕ) :=
  upsertFold (fun x => x) (fun _ => 1) (fun _ n => n + 1) xs

/-- The descending-count order of `Counter.most_common` (a stable sort, so
ties keep first-occurrence order). -/
def countDesc (a b : String × ℕ) : Prop := b.2 ≤ a.2

instance : DecidableRel countDesc := fun a b =>
  inferInstanceAs (Decidable (b.2 ≤ a.2))

instance : IsTotal (String × ℕ) countDesc := ⟨fun a b => Nat.le_total b.2 a.2⟩

instance : IsTrans (String × ℕ) countDesc :=
  ⟨fun _ _ _ h1 h2 => le_trans h2 h1⟩

/-- `Counter(...).most_common(1)` (empty input gives none). -/
def mostCommon (xs : List String) : Option (String × ℕ) :=
  (List.insertionSort countDesc (counter xs)).head?

/-- Python `max(items, key=lambda x: x[1])` — the FIRST maximal item in
iteration order (`none` on an empty list, where Python raises, guarded by
the caller). -/
def maxByCount (l : List (String × ℕ)) : Option (String × ℕ) :=
  l.foldl (fun acc p =>
    match acc with
    | none => some p
    | some q => if q.2 < p.2 then some p else some q) none

/-- One element of `weekly_trends`. -/
structure WeekBucket where
  week_start : ℕ
  week_end : ℕ
  emotions : List (String × ℕ)
  total_interactions : ℕ
deriving Repr, DecidableEq

/-- One value of `daily_averages`. -/
structure DayAverage where
  most_common_emotion : String
  count : ℕ
  total_interactions : ℕ
deriving Repr, DecidableEq

/-- The dict returned by `get_emotion_stats`. -/
structure EmotionStats where
  emotion_counts : List (String × ℕ)
  total_interactions : ℕ
  time_range : String
  start_date : ℕ
  end_date : ℕ
  weekly_trends : List WeekBucket
  daily_averages : List (String × DayAverage)
deriving Repr, DecidableEq

/-- The window length chosen from `time_range` (unknown values default to
the month window). -/
def rangeDays (tr : String) : ℕ :=
  if tr == "week" then 7 else if tr == "month" then 30
  else if tr == "quarter" then 90 else 30

/-- The `while current_date <= end_date:` bucketing loop.  `fuel` is a
structural-recursion bound; every iteration advances `cur` by at least 1,
so any `fuel ≥ end_ + 1 - cur` reproduces the loop exactly. -/
def weeklyBuckets (logs : List EmotionLog) : ℕ → ℕ → ℕ → List WeekBucket
  | 0, _, _ => []
  | fuel + 1, cur, end_ =>
    if cur ≤ end_ then
      let week_end := min (cur + 6) end_
      let week_logs := logs.filter (fun l =>
        decide (cur ≤ l.log_date) && decide (l.log_date ≤ week_end))
      { week_start := cur, week_end := week_end,
        emotions := counter (week_logs.map (fun l => l.dominant_emotion)),
        total_interactions := week_logs.length } ::
        weeklyBuckets logs fuel (week_end + 1) end_
    else []

/-- The `daily_emotions = defaultdict(list)` grouping by weekday name. -/
def groupByWeekday (logs : List EmotionLog) : List (String × List String) :=
  upsertFold (fun log => weekdayName log.log_date)
    (fun log => [log.dominant_emotion])
    (fun log ems => ems ++ [log.dominant_emotion]) logs

/-- The `daily_averages` dict: per weekday, the most common dominant
emotion with its count (the group is never empty, so `most_common(1)` is
never empty). -/
def dailyAverages (logs : List EmotionLog) : List (String × DayAverage) :=
  (groupByWeekday logs).filterMap (fun p =>
    (mostCommon p.2).map (fun mc =>
      (p.1, { most_common_emotion := mc.1, count := mc.2,
              total_interactions := p.2.length })))

/-- `get_emotion_stats(user_id, time_range)`; `today` stands for
`date.today()`. -/
def get_emotion_stats (db : List EmotionLog) (uid : ℕ) (time_range : String)
    (today : ℕ) : EmotionStats :=
  let end_date := today
  let start_date := today - rangeDays time_range
  let logs := db.filter (fun l => l.user_id == uid &&
    decide (start_date ≤ l.log_date) && decide (l.log_date ≤ end_date))
  if logs = [] then
    { emotion_counts := [], total_interactions := 0,
      time_range := time_range, start_date := start_date,
      end_date := end_date, weekly_trends := [], daily_averages := [] }
  else
    { emotion_counts := counter (logs.map (fun l => l.dominant_emotion)),
      total_interactions := logs.length,
      time_range := time_range, start_date := start_date,
      end_date := end_date,
      weekly_trends :=
        weeklyBuckets logs (end_date + 1 - start_date) start_date end_date,
      daily_averages := dailyAverages logs }

/-- One pattern finding; `ptype` is the dict's `"type"` key, the optional
fields are the per-type extras. -/
structure Finding where
  pattern : String
  ptype : String
  emotion : Option String
  count : Option ℕ
  day : Option String
  trend : Option String
  diversity_score : Option ℚ
  suggestion : String
  verse_themes : List String
deriving Repr, DecidableEq

/-- `_get_emotion_suggestion`. -/
def get_emotion_suggestion (emotion : String) : String :=
  match ([("joy", "Embrace this positive energy and share it with others"),
    ("gratitude", "Continue cultivating thankfulness in your daily life"),
    ("love", "Let this love guide your actions and relationships"),
    ("sadness", "Allow yourself to feel this emotion while seeking wisdom for healing"),
    ("anger", "Channel this energy into positive action and self-reflection"),
    ("fear", "Face your fears with courage and seek divine guidance"),
    ("anxiety", "Practice surrender and trust in the divine plan"),
    ("confusion", "Seek clarity through meditation and spiritual study"),
    ("neutral", "Use this balanced state to deepen your spiritual practice")].find?
      (fun p => p.1 == emotion)) with
  | some p => p.2
  | none => "Reflect on this emotion and seek wisdom from the Gita"

/-- `_get_day_suggestion`. -/
def get_day_suggestion (emotion : String) : String :=
  if emotion ∈ ["joy", "gratitude", "love", "optimism"] then
    "uplifting and social"
  else if emotion ∈ ["sadness", "fear", "anxiety"] then
    "calming and reflective"
  else if emotion ∈ ["anger", "frustration"] then
    "physical exercise or creative"
  else "mindful and balanced"

/-- `_get_verse_themes_for_emotion`. -/
def get_verse_themes_for_emotion (emotion : String) : List String :=
  match ([("joy", ["gratitude", "devotion", "celebration"]),
    ("gratitude", ["thankfulness", "devotion", "appreciation"]),
    ("love", ["devotion", "compassion", "unity"]),
    ("sadness", ["hope", "resilience", "comfort"]),
    ("anger", ["equanimity", "self_control", "forgiveness"]),
    ("fear", ["courage", "protection", "faith"]),
    ("anxiety", ["surrender", "trust", "peace"]),
    ("confusion", ["clarity", "wisdom", "guidance"]),
    ("neutral", ["balance", "mindfulness", "awareness"])].find?
      (fun p => p.1 == emotion)) with
  | some p => p.2
  | none => ["wisdom", "guidance"]

/-- Pattern 1 — most frequent emotion, only when its count is ≥ 3. -/
def freqFindings (stats : EmotionStats) : List Finding :=
  match maxByCount stats.emotion_counts with
  | none => []
  | some mf =>
    if 3 ≤ mf.2 then
      [{ pattern := "Your most frequent emotion is " ++ mf.1 ++ " (" ++
           toString mf.2 ++ " times)",
         ptype := "frequency", emotion := some mf.1, count := some mf.2,
         day := none, trend := none, diversity_score := none,
         suggestion := get_emotion_suggestion mf.1,
         verse_themes := get_verse_themes_for_emotion mf.1 }]
    else []

/-- Pattern 2 — one finding per weekday whose most common emotion repeats
(count ≥ 2). -/
def temporalFindings (stats : EmotionStats) : List Finding :=
  stats.daily_averages.filterMap (fun p =>
    if 2 ≤ p.2.count then
      some { pattern := "You tend to feel " ++ p.2.most_common_emotion ++
               " on " ++ p.1 ++ "s",
             ptype := "temporal", emotion := some p.2.most_common_emotion,
             count := some p.2.count, day := some p.1, trend := none,
             diversity_score := none,
             suggestion := "Consider planning " ++
               get_day_suggestion p.2.most_common_emotion ++
               " activities on " ++ p.1 ++ "s",
             verse_themes :=
               get_verse_themes_for_emotion p.2.most_common_emotion }
    else none)

/-- The fixed allowlist of positive emotions. -/
def positiveEmotions : List String :=
  ["joy", "gratitude", "love", "optimism", "relief", "pride"]

/-- `sum(week["emotions"].get(emotion, 0) for emotion in positive_emotions)`. -/
def sumPositives (ems : List (String × ℕ)) : ℕ :=
  (positiveEmotions.map (fun e =>
    match ems.find? (fun p => p.1 == e) with
    | some p => p.2
    | none => 0)).sum

/-- Pattern 3 — first vs. last week bucket, positive-emotion trend. -/
def trendFindings (stats : EmotionStats) : List Finding :=
  match stats.weekly_trends with
  | [] => []
  | [_] => []
  | f :: r :: rs =>
    let lw := (r :: rs).getLast (by simp)
    if 0 < f.total_interactions ∧ 0 < lw.total_interactions then
      let first_positive := sumPositives f.emotions
      let last_positive := sumPositives lw.emotions
      if first_positive < last_positive then
        [{ pattern := "Your positive emotions have increased over time",
           ptype := "trend", emotion := none, count := none, day := none,
           trend := some "positive_increase", diversity_score := none,
           suggestion :=
             "Keep up the positive momentum! Continue your spiritual practice",
           verse_themes := ["gratitude", "devotion", "joy"] }]
      else if last_positive < first_positive ∧ 0 < last_positive then
        [{ pattern := "You may be experiencing some challenges lately",
           ptype := "trend", emotion := none, count := none, day := none,
           trend := some "positive_decrease", diversity_score := none,
           suggestion :=
             "Consider focusing on verses about resilience and inner strength",
           verse_themes := ["resilience", "strength", "hope"] }]
      else []
    else []

/-- Pattern 4 — emotional diversity, only when total interactions ≥ 5. -/
def diversityFindings (stats : EmotionStats) : List Finding :=
  let unique := stats.emotion_counts.length
  if 5 ≤ stats.total_interactions then
    if 5 ≤ unique then
      [{ pattern := "You experience a wide range of emotions (" ++
           toString unique ++ " different emotions)",
         ptype := "diversity", emotion := none, count := none, day := none,
         trend := none,
         diversity_score :=
           some ((unique : ℚ) / (stats.total_interactions : ℚ)),
         suggestion := "Your emotional awareness is developing well. Continue exploring different aspects of your inner life",
         verse_themes := ["self_awareness", "emotional_balance"] }]
    else if unique ≤ 2 then
      [{ pattern := "You tend to experience similar emotions repeatedly",
         ptype := "diversity", emotion := none, count := none, day := none,
         trend := none,
         diversity_score :=
           some ((unique : ℚ) / (stats.total_interactions : ℚ)),
         suggestion := "Consider exploring different situations or perspectives to broaden your emotional experience",
         verse_themes := ["growth", "exploration", "balance"] }]
    else []
  else []

/-- `identify_patterns(user_id, time_range)`: the four detectors appended
in order. -/
def identify_patterns (db : List EmotionLog) (uid : ℕ) (time_range : String)
    (today : ℕ) : List Finding :=
  let stats := get_emotion_stats db uid time_range today
  freqFindings stats ++ temporalFindings stats ++ trendFindings stats ++
    diversityFindings stats

/-- A small log row used to instantiate the analytics theorems. -/
def mkLog (d c : ℕ) (emo : String) (vids : List String) : EmotionLog :=
  { user_id := 1, log_date := d, created_at := c, user_input := "entry",
    dominant_emotion := emo, emotion_confidence := 1, emotion_emoji := "😐",
    emotion_color := "#F3F4F6", all_emotions := [], verse_ids := vids,
    session_id := none }

/-- Two repeated emotions on each of two weekdays: both weekdays trigger
the temporal detector. -/
def cexLogs : List EmotionLog :=
  [mkLog 23 1 "joy" [], mkLog 23 2 "joy" [],
   mkLog 24 3 "sadness" [], mkLog 24 4 "sadness" []]

/-- Two interactions on day 5 (created at 1 and 2) and one on day 6, used
to instantiate the mood-calendar theorem. -/
def moodDB : List EmotionLog :=
  [mkLog 5 1 "joy" ["BG1.1"], mkLog 5 2 "sadness" ["BG2.2", "BG1.1"],
   mkLog 6 3 "fear" ["BG3.3"]]

end Logging

/-! ## Theorems -/

namespace EmotionDetection

theorem round3_nonneg {q : ℚ} (h0 : 0 ≤ q) : 0 ≤ round3 q := by
  unfold round3
  have h1 : (0 : ℤ) ≤ round (q * 1000) := by
    have : round (0 : ℚ) ≤ round (q * 1000) := by
      rw [round_eq, round_eq]
      exact Int.floor_le_floor (by linarith)
    simpa using this
  positivity

theorem round3_le_one {q : ℚ} (h1 : q ≤ 1) : round3 q ≤ 1 := by
  unfold round3
  have h2 : round (q * 1000) ≤ round ((1000 : ℕ) : ℚ) := by
    rw [round_eq, round_eq]
    push_cast
    exact Int.floor_le_floor (by linarith)
  rw [round_natCast] at h2
  rw [div_le_one (by norm_num)]
  exact_mod_cast h2

/-- C2: `detect_emotion` is total and well-formed: it always returns a
non-empty list, sorted descending by confidence, each entry carrying a
confidence in [0,1] and the emoji/color of the fixed metadata table; when
the classifier raises or no entry clears the threshold the result is
exactly the synthetic neutral entry; `get_dominant_emotion` returns the
head of a non-empty list and the synthetic neutral entry on `[]`. -/
theorem detect_emotion_total (cr : Except Unit (List (String × ℚ))) (threshold : ℚ)
    (hscores : ∀ rs, cr = Except.ok rs → ∀ p ∈ rs, 0 ≤ p.2 ∧ p.2 ≤ 1) :
    detect_emotion cr threshold ≠ [] ∧
    (detect_emotion cr threshold).Pairwise (fun a b => b.confidence ≤ a.confidence) ∧
    (∀ e ∈ detect_emotion cr threshold,
      0 ≤ e.confidence ∧ e.confidence ≤ 1 ∧ (e.emoji, e.color) = lookupMeta e.label) ∧
    (∀ err, cr = Except.error err → detect_emotion cr threshold = [neutralEntry]) ∧
    (∀ rs, cr = Except.ok rs → (∀ p ∈ rs, p.2 < threshold) →
      detect_emotion cr threshold = [neutralEntry]) ∧
    (∀ e es, detect_emotion cr threshold = e :: es →
      get_dominant_emotion (detect_emotion cr threshold) = e) ∧
    get_dominant_emotion [] = neutralEntry := by
  have hneutral : 0 ≤ neutralEntry.confidence ∧ neutralEntry.confidence ≤ 1 ∧
      (neutralEntry.emoji, neutralEntry.color) = lookupMeta neutralEntry.label := by
    refine ⟨by norm_num [neutralEntry], by norm_num [neutralEntry], ?_⟩
    decide
  match hcr : cr with
  | .error u =>
    refine ⟨by simp [detect_emotion], by simp [detect_emotion], ?_, ?_, ?_, ?_, rfl⟩
    · intro e he
      simp only [detect_emotion, List.mem_singleton] at he
      subst he; exact hneutral
    · intro _ _; simp [detect_emotion]
    · intro rs h; cases h
    · intro e es h
      simp only [detect_emotion] at h ⊢
      rw [h]; rfl
  | .ok rs =>
    have hsc : ∀ p ∈ rs, 0 ≤ p.2 ∧ p.2 ≤ 1 := hscores rs rfl
    set emotions := rs.filterMap (fun r =>
      if threshold ≤ r.2 then
        some ({ label := r.1, confidence := round3 r.2,
                emoji := (lookupMeta r.1).1, color := (lookupMeta r.1).2 } : EmotionEntry)
      else none) with hemotions
    set sorted := List.insertionSort confDesc emotions with hsorted
    have hdef : detect_emotion (Except.ok rs) threshold =
        if sorted.isEmpty then [neutralEntry] else sorted := by
      simp only [detect_emotion, hemotions, hsorted]
    have hperm : sorted.Perm emotions := List.perm_insertionSort confDesc emotions
    have hmem : ∀ e ∈ sorted,
        0 ≤ e.confidence ∧ e.confidence ≤ 1 ∧ (e.emoji, e.color) = lookupMeta e.label := by
      intro e he
      have he2 : e ∈ emotions := hperm.mem_iff.mp he
      rw [hemotions, List.mem_filterMap] at he2
      obtain ⟨p, hp, hpe⟩ := he2
      by_cases hth : threshold ≤ p.2
      · simp only [hth, if_pos] at hpe
        obtain ⟨h0, h1⟩ := hsc p hp
        cases hpe
        exact ⟨round3_nonneg h0, round3_le_one h1, rfl⟩
      · simp [hth] at hpe
    have hpair : sorted.Pairwise (fun a b => b.confidence ≤ a.confidence) := by
      have := List.sorted_insertionSort confDesc emotions
      exact this.imp (fun h => h)
    refine ⟨?_, ?_, ?_, ?_, ?_, ?_, rfl⟩
    · rw [hdef]
      by_cases hE : sorted.isEmpty
      · simp [hE]
      · simp only [hE, if_neg, Bool.false_eq_true, not_false_iff]
        intro hnil
        rw [hnil] at hE
        exact hE rfl
    · rw [hdef]
      by_cases hE : sorted.isEmpty
      · simp [hE]
      · simpa [hE] using hpair
    · rw [hdef]
      by_cases hE : sorted.isEmpty
      · intro e he
        simp only [hE, if_pos, List.mem_singleton] at he
        subst he; exact hneutral
      · intro e he
        simp only [hE, Bool.false_eq_true, if_neg, not_false_iff] at he
        exact hmem e he
    · intro _ h; cases h
    · intro rs' hrs' hbelow
      cases hrs'
      have hnil : emotions = [] := by
        rw [hemotions, List.filterMap_eq_nil_iff]
        intro p hp
        have := hbelow p hp
        simp [not_le.mpr this]
      have : sorted = [] := by rw [hsorted, hnil]; rfl
      rw [hdef, this]; rfl
    · intro e es h
      rw [h]; rfl

/-- Witness for `detect_emotion_total` at a concrete classifier output. -/
theorem detect_emotion_total_witness :
    detect_emotion (Except.ok [("joy", 9/10), ("sadness", 1/5)]) (3/10) ≠ [] ∧
    (detect_emotion (Except.ok [("joy", 9/10), ("sadness", 1/5)]) (3/10)).Pairwise
      (fun a b => b.confidence ≤ a.confidence) ∧
    (∀ e ∈ detect_emotion (Except.ok [("joy", 9/10), ("sadness", 1/5)]) (3/10),
      0 ≤ e.confidence ∧ e.confidence ≤ 1 ∧ (e.emoji, e.color) = lookupMeta e.label) ∧
    (∀ err, (Except.ok [("joy", 9/10), ("sadness", 1/5)] : Except Unit (List (String × ℚ)))
        = Except.error err →
      detect_emotion (Except.ok [("joy", 9/10), ("sadness", 1/5)]) (3/10) = [neutralEntry]) ∧
    (∀ rs, (Except.ok [("joy", 9/10), ("sadness", 1/5)] : Except Unit (List (String × ℚ)))
        = Except.ok rs → (∀ p ∈ rs, p.2 < 3/10) →
      detect_emotion (Except.ok [("joy", 9/10), ("sadness", 1/5)]) (3/10) = [neutralEntry]) ∧
    (∀ e es, detect_emotion (Except.ok [("joy", 9/10), ("sadness", 1/5)]) (3/10) = e :: es →
      get_dominant_emotion (detect_emotion (Except.ok [("joy", 9/10), ("sadness", 1/5)]) (3/10)) = e) ∧
    get_dominant_emotion [] = neutralEntry := by
  apply detect_emotion_total
  intro rs h p hp
  cases h
  simp only [List.mem_cons, List.mem_singleton] at hp
  rcases hp with h | h | h
  · rw [h]; norm_num
  · rw [h]; norm_num
  · cases h

end EmotionDetection

namespace VectorSearch

/-- C10: `get_verse_by_id` never raises: it returns `none` both when the
backend lookup raises and when the id is unknown (so the two cases are
indistinguishable at this interface), and `some` of the found metadata
otherwise. -/
theorem get_verse_by_id_total :
    get_verse_by_id (Except.error ()) = none ∧
    get_verse_by_id (Except.ok []) = none ∧
    (∀ m ms, get_verse_by_id (Except.ok (m :: ms)) = some m) ∧
    get_verse_by_id (Except.error ()) = get_verse_by_id (Except.ok []) :=
  ⟨rfl, rfl, fun _ _ => rfl, rfl⟩

theorem search_verses_of_failed (backend : Except Unit (List (VerseMeta × ℚ)))
    (h : backend = Except.error () ∨ backend = Except.ok [])
    (emotion : Option String) (top_k : ℕ) :
    search_verses backend emotion top_k = [] := by
  rcases h with h | h <;> subst h
  · rfl
  · cases emotion <;> simp [search_verses, rerank_by_emotion]

/-- Witness for `search_verses_of_failed` at a concrete failing backend. -/
theorem search_verses_of_failed_witness :
    search_verses (Except.error ()) (some "joy") 3 = [] :=
  search_verses_of_failed _ (Or.inl rfl) _ _

end VectorSearch

namespace Chat

open EmotionDetection VectorSearch

theorem resolveSession_fb (req : ChatRequest) (env : ChatEnv) :
    (resolveSession req env true).2.2 = true := by
  unfold resolveSession
  cases req.session_id with
  | none => cases env.createSessionResult <;> rfl
  | some sid => cases env.getContextResult <;> rfl

theorem generateStep_fb (env : ChatEnv) (history : List HistMsg)
    (emotion : EmotionEntry) (verses : List VerseSearchResult) :
    (generateStep env history emotion verses true).2 = true := by
  unfold generateStep
  cases env.generationResult history with
  | ok t => rfl
  | error _ => cases env.fallbackGenResult <;> rfl

/-- C1: in the chat pipeline, when the request passes validation and the
retrieval backend raises or returns no hits (so the retriever adapter
yields an empty list), the response still carries a non-empty verse list —
exactly the fixed default verse BG2.47 — and `fallback_used = true`. -/
theorem chat_retrieval_fallback (req : ChatRequest) (env : ChatEnv)
    (hmode : req.interaction_mode ∈ validModes)
    (hretr : env.retrievalBackend = Except.error () ∨
      env.retrievalBackend = Except.ok []) :
    ∃ r, chat req env = Except.ok r ∧ r.verses = [defaultVerse] ∧
      r.fallback_used = true := by
  unfold chat
  rw [if_pos hmode]
  cases henv : env.emotionResult with
  | ok e =>
    simp only [henv]
    rw [search_verses_of_failed env.retrievalBackend hretr]
    refine ⟨_, rfl, rfl, ?_⟩
    show (generateStep env _ _ _ (resolveSession req env true).2.2).2 = true
    rw [resolveSession_fb, generateStep_fb]
  | error u =>
    simp only [henv]
    rw [search_verses_of_failed env.retrievalBackend hretr]
    refine ⟨_, rfl, rfl, ?_⟩
    show (generateStep env _ _ _ (resolveSession req env true).2.2).2 = true
    rw [resolveSession_fb, generateStep_fb]

/-- Witness for `chat_retrieval_fallback`: a concrete request against a
raising retrieval backend. -/
theorem chat_retrieval_fallback_witness :
    ∃ r, chat
      { user_input := "I feel anxious", session_id := none,
        interaction_mode := "wisdom" }
      { cexEnv with retrievalBackend := Except.error () } = Except.ok r ∧
      r.verses = [defaultVerse] ∧ r.fallback_used = true :=
  chat_retrieval_fallback _ _ (by decide) (Or.inl rfl)

/-- Counterexample to C6 as stated: in `cexEnv` the context load for the
provided session id 7 fails, yet the response keeps the provided session id
(no throwaway id is synthesized) and `fallback_used` stays `false`. -/
theorem chat_session_resolution_counterexample :
    cexReq.session_id = some 7 ∧ cexEnv.getContextResult = Except.error () ∧
    (chat cexReq cexEnv).toOption.map ChatResponse.session_id = some 7 ∧
    (chat cexReq cexEnv).toOption.map ChatResponse.fallback_used = some false := by
  refine ⟨rfl, rfl, ?_, ?_⟩ <;> decide

/-- C6 amended: when session resolution fails the request still completes
with an empty history; a throwaway session id and `fallback_used = true`
occur only on the create-session failure path (no session id provided),
while a context-load failure for a provided session id keeps the provided
id and leaves the fallback flag unchanged. -/
theorem chat_session_resolution_behavior (req : ChatRequest) (env : ChatEnv)
    (fb : Bool) :
    (∀ sid, req.session_id = some sid → env.getContextResult = Except.error () →
      resolveSession req env fb = (sid, [], fb)) ∧
    (req.session_id = none → env.createSessionResult = Except.error () →
      resolveSession req env fb = (env.freshUuid, [], true)) ∧
    (req.interaction_mode ∈ validModes → ∃ r, chat req env = Except.ok r) := by
  refine ⟨?_, ?_, ?_⟩
  · intro sid hsid hctx
    unfold resolveSession
    rw [hsid, hctx]
  · intro hsid hcreate
    unfold resolveSession
    rw [hsid, hcreate]
  · intro hmode
    unfold chat
    rw [if_pos hmode]
    cases env.emotionResult <;> exact ⟨_, rfl⟩

/-- Witness for `chat_session_resolution_behavior` at the concrete
environment `cexEnv` and at its create-failure variant. -/
theorem chat_session_resolution_behavior_witness :
    resolveSession cexReq cexEnv false = (7, [], false) ∧
    resolveSession { cexReq with session_id := none }
      { cexEnv with createSessionResult := Except.error () } false =
      (cexEnv.freshUuid, [], true) ∧
    (∃ r, chat cexReq cexEnv = Except.ok r) := by
  refine ⟨?_, ?_, ?_⟩
  · exact (chat_session_resolution_behavior cexReq cexEnv false).1 7 rfl rfl
  · exact (chat_session_resolution_behavior _ _ false).2.1 rfl rfl
  · exact (chat_session_resolution_behavior cexReq cexEnv false).2.2 (by decide)

end Chat

namespace ConversationStore

theorem find?_session_update (l : List StoredSession) (sid : ℕ) (s : StoredSession)
    (f : StoredSession → StoredSession) (hf : ∀ t, (f t).id = t.id)
    (h : l.find? (fun t => t.id == sid) = some s) :
    (l.map (fun t => if t.id == sid then f t else t)).find?
      (fun t => t.id == sid) = some (f s) := by
  induction l with
  | nil => simp at h
  | cons a l ih =>
    by_cases ha : (a.id == sid) = true
    · rw [List.find?_cons_of_pos (p := fun t : StoredSession => t.id == sid) _ ha] at h
      obtain rfl : a = s := by injection h
      simp only [List.map_cons, ha, if_pos]
      have hfa : ((f a).id == sid) = true := by rw [hf a]; exact ha
      rw [List.find?_cons_of_pos (p := fun t : StoredSession => t.id == sid) _ hfa]
    · rw [List.find?_cons_of_neg (p := fun t : StoredSession => t.id == sid) _ ha] at h
      simp only [List.map_cons, ha, Bool.false_eq_true, if_neg, not_false_iff]
      rw [List.find?_cons_of_neg (p := fun t : StoredSession => t.id == sid) _ ha]
      exact ih h

theorem foldl_max_range' (k : ℕ) : (List.range' 1 k).foldl max 0 = k := by
  induction k with
  | zero => rfl
  | succ n ih =>
    rw [List.range'_concat, List.foldl_append, ih]
    simp [Nat.max_def]
    omega

theorem foldl_max_seq (ms : List StoredMessage) (k : ℕ)
    (h : ms.map (fun m => m.sequence_number) = List.range' 1 k) :
    ms.foldl (fun a m => max a m.sequence_number) 0 = k := by
  have h1 : ms.foldl (fun a m => max a m.sequence_number) 0 =
      (ms.map (fun m => m.sequence_number)).foldl max 0 := by
    rw [List.foldl_map]
  rw [h1, h, foldl_max_range']

theorem add_message_eq_ok (st : DBState) (sid : ℕ) (r c : String)
    (e : Option EmotionSnapshot) (v : Option String) (now : ℕ)
    (s : StoredSession) (hs : findSession st sid = some s) :
    add_message st sid r c e v now = Except.ok
      (newMessage st sid r c e v now,
       insertMessage st sid (newMessage st sid r c e v now)) := by
  simp only [add_message, hs]

theorem findSession_insertMessage (st : DBState) (sid : ℕ)
    (msg : StoredMessage) (s : StoredSession)
    (hs : findSession st sid = some s) :
    findSession (insertMessage st sid msg) sid =
      some { s with message_count := s.message_count + 1 } :=
  find?_session_update st.sessions sid s
    (fun t => { t with message_count := t.message_count + 1 })
    (fun _ => rfl) hs

theorem sessionMessages_insertMessage (st : DBState) (sid : ℕ)
    (msg : StoredMessage) (hmsg : msg.session_id = sid) :
    sessionMessages (insertMessage st sid msg) sid =
      sessionMessages st sid ++ [msg] := by
  simp only [insertMessage, sessionMessages, List.filter_append]
  congr 1
  simp [hmsg]

theorem addMessages_invariant (sid : ℕ) (items : List (String × String)) :
    ∀ st now k s, findSession st sid = some s → s.message_count = k →
      (sessionMessages st sid).map (fun m => m.sequence_number) = List.range' 1 k →
      ∃ st' s', addMessages st sid items now = Except.ok st' ∧
        findSession st' sid = some s' ∧ s'.message_count = k + items.length ∧
        (sessionMessages st' sid).map (fun m => m.sequence_number) =
          List.range' 1 (k + items.length) := by
  induction items with
  | nil =>
    intro st now k s h1 h2 h3
    exact ⟨st, s, rfl, h1, by simp [h2], by simpa using h3⟩
  | cons it rest ih =>
    intro st now k s h1 h2 h3
    obtain ⟨r, c⟩ := it
    have hseq : lastSequenceNumber st sid = k := foldl_max_seq _ k h3
    have hadd := add_message_eq_ok st sid r c none none now s h1
    set msg := newMessage st sid r c none none now with hmsgdef
    set st1 := insertMessage st sid msg with hst1
    have hfind1 : findSession st1 sid =
        some { s with message_count := s.message_count + 1 } :=
      findSession_insertMessage st sid msg s h1
    have hmsgs1 : sessionMessages st1 sid = sessionMessages st sid ++ [msg] :=
      sessionMessages_insertMessage st sid msg rfl
    have hmap1 : (sessionMessages st1 sid).map (fun m => m.sequence_number) =
        List.range' 1 (k + 1) := by
      rw [hmsgs1, List.map_append, h3, List.range'_concat]
      simp [hmsgdef, newMessage, hseq, Nat.add_comm]
    obtain ⟨st', s', hrun, hf, hc, hm⟩ :=
      ih st1 (now + 1) (k + 1) { s with message_count := s.message_count + 1 }
        hfind1 (by simp [h2]) hmap1
    refine ⟨st', s', ?_, hf, ?_, ?_⟩
    · simp only [addMessages, hadd]
      exact hrun
    · simp only [List.length_cons]
      omega
    · simp only [List.length_cons]
      have harith : k + (rest.length + 1) = k + 1 + rest.length := by omega
      rw [harith]
      exact hm

/-- C3: `add_message` fails with NotFound on an unknown session; on a known
session it assigns `sequence_number = last_sequence_in_session + 1` (1 for
an empty session) and increments the denormalized `message_count` in the
same commit; consequently appending N messages sequentially to a fresh
session yields sequence numbers exactly 1..N (gapless, duplicate-free) and
`message_count = N`. -/
theorem add_message_sequencing (st : DBState) (sid : ℕ) :
    (findSession st sid = none → ∀ r c e v now,
      add_message st sid r c e v now = Except.error CMError.notFound) ∧
    (∀ s, findSession st sid = some s → ∀ r c e v now,
      ∃ m st', add_message st sid r c e v now = Except.ok (m, st') ∧
        m.sequence_number = lastSequenceNumber st sid + 1 ∧
        (sessionMessages st sid = [] → m.sequence_number = 1) ∧
        ∃ s', findSession st' sid = some s' ∧
          s'.message_count = s.message_count + 1 ∧
          sessionMessages st' sid = sessionMessages st sid ++ [m]) ∧
    (∀ s, findSession st sid = some s → s.message_count = 0 →
      sessionMessages st sid = [] → ∀ items now,
      ∃ st' s', addMessages st sid items now = Except.ok st' ∧
        findSession st' sid = some s' ∧ s'.message_count = items.length ∧
        (sessionMessages st' sid).map (fun m => m.sequence_number) =
          List.range' 1 items.length) := by
  refine ⟨?_, ?_, ?_⟩
  · intro h r c e v now
    simp only [add_message, h]
  · intro s hs r c e v now
    refine ⟨newMessage st sid r c e v now,
      insertMessage st sid (newMessage st sid r c e v now),
      add_message_eq_ok st sid r c e v now s hs, rfl, ?_, ?_⟩
    · intro hempty
      simp [newMessage, lastSequenceNumber, hempty]
    · exact ⟨{ s with message_count := s.message_count + 1 },
        findSession_insertMessage st sid _ s hs, rfl,
        sessionMessages_insertMessage st sid _ rfl⟩
  · intro s hs hc hempty items now
    have h3 : (sessionMessages st sid).map (fun m => m.sequence_number) =
        List.range' 1 0 := by simp [hempty]
    obtain ⟨st', s', hrun, hf, hcount, hmap⟩ :=
      addMessages_invariant sid items st now 0 s hs hc h3
    exact ⟨st', s', hrun, hf, by simpa using hcount, by simpa using hmap⟩

/-- Witness for `add_message_sequencing`: three messages appended to the
fresh session of `sampleDB` get sequence numbers 1, 2, 3 and
`message_count = 3`. -/
theorem add_message_sequencing_witness :
    ∃ st' s', addMessages sampleDB 1
        [("user", "hi"), ("assistant", "om"), ("user", "ok")] 50 =
        Except.ok st' ∧
      findSession st' 1 = some s' ∧ s'.message_count = 3 ∧
      (sessionMessages st' 1).map (fun m => m.sequence_number) =
        List.range' 1 3 := by
  have h := (add_message_sequencing sampleDB 1).2.2
    { id := 1, user_id := 10, interaction_mode := "wisdom", started_at := 0,
      ended_at := none, summary := none, message_count := 0 }
    rfl rfl rfl [("user", "hi"), ("assistant", "om"), ("user", "ok")] 50
  simpa using h

/-- C4 check: on `sampleDB`, `end_session` succeeds once and returns
InvalidState on the second call — but `add_message` on the ended session
still succeeds (the source never checks `ended_at` before inserting),
appending a message with sequence number 1.  This contradicts the claimed
"no message can be appended once `ended_at` is set". -/
theorem end_session_not_terminal_for_add_message :
    ∃ s1 db1, end_session sampleDB 1 none 100 = Except.ok (s1, db1) ∧
      s1.ended_at = some 100 ∧
      end_session db1 1 none 200 = Except.error CMError.alreadyEnded ∧
      ∃ m db2, add_message db1 1 "user" "hi" none none 300 =
          Except.ok (m, db2) ∧
        m.sequence_number = 1 ∧
        ∃ s2, findSession db2 1 = some s2 ∧ s2.ended_at = some 100 ∧
          s2.message_count = 1 := by
  refine ⟨_, _, rfl, rfl, rfl, _, _, rfl, rfl, _, rfl, rfl, rfl⟩

/-- C5: for an existing session, `get_context` with window size W returns
at most W messages — the W most recent by sequence number, reordered to
strictly increasing (chronological) sequence order — and `total_messages`
equal to the session's full message count regardless of W; omitting the
window size is the same as passing the default 10.  (The distinctness
hypothesis on sequence numbers is the store invariant established by C3.) -/
theorem get_context_window (st : DBState) (sid : ℕ) (s : StoredSession)
    (hs : findSession st sid = some s)
    (hdistinct : (sessionMessages st sid).Pairwise
      (fun a b => a.sequence_number ≠ b.sequence_number)) :
    (∀ W, ∃ ctx, get_context st sid (some W) = Except.ok ctx ∧
      ctx.messages.length ≤ W ∧
      ctx.messages.Pairwise
        (fun a b => a.sequence_number < b.sequence_number) ∧
      ctx.total_messages = (sessionMessages st sid).length ∧
      (∀ m ∈ ctx.messages, m ∈ sessionMessages st sid) ∧
      (∀ m ∈ ctx.messages, ∀ m2 ∈ sessionMessages st sid,
        m2 ∉ ctx.messages → m2.sequence_number < m.sequence_number)) ∧
    get_context st sid none = get_context st sid (some 10) := by
  constructor
  · intro W
    set L := sessionMessages st sid with hL
    set S := List.insertionSort seqDesc L with hS
    have hperm : S.Perm L := List.perm_insertionSort seqDesc L
    have hsorted : S.Pairwise seqDesc := List.sorted_insertionSort seqDesc L
    have hdistS : S.Pairwise
        (fun a b => a.sequence_number ≠ b.sequence_number) :=
      (hperm.pairwise_iff (fun h => Ne.symm h)).mpr hdistinct
    have hstrict : S.Pairwise
        (fun a b => b.sequence_number < a.sequence_number) := by
      have hand := hsorted.and hdistS
      refine hand.imp ?_
      rintro a b ⟨h1, h2⟩
      exact lt_of_le_of_ne h1 (Ne.symm h2)
    set T := S.take W with hT
    have hTsub : T.Sublist S := List.take_sublist W S
    have hTstrict : T.Pairwise
        (fun a b => b.sequence_number < a.sequence_number) :=
      List.Pairwise.sublist hTsub hstrict
    refine ⟨{ session_id := sid, messages := T.reverse,
              total_messages := L.length }, ?_, ?_, ?_, rfl, ?_, ?_⟩
    · simp only [get_context, hs, hL, hS, hT]
      rfl
    · show T.reverse.length ≤ W
      rw [List.length_reverse]
      exact List.length_take_le W S
    · exact List.pairwise_reverse.mpr hTstrict
    · intro m hm
      have hmT : m ∈ T := List.mem_reverse.mp hm
      exact hperm.mem_iff.mp (hTsub.subset hmT)
    · intro m hm m2 hm2 hnot
      have hmT : m ∈ T := List.mem_reverse.mp hm
      have hm2S : m2 ∈ S := hperm.mem_iff.mpr hm2
      have hm2T : m2 ∉ T := fun hc => hnot (List.mem_reverse.mpr hc)
      have hsplit : T ++ S.drop W = S := List.take_append_drop W S
      have hpa : (T ++ S.drop W).Pairwise
          (fun a b => b.sequence_number < a.sequence_number) := by
        rw [hsplit]; exact hstrict
      rw [List.pairwise_append] at hpa
      have hm2drop : m2 ∈ S.drop W := by
        have : m2 ∈ T ++ S.drop W := by rw [hsplit]; exact hm2S
        rcases List.mem_append.mp this with h | h
        · exact absurd h hm2T
        · exact h
      exact hpa.2.2 m hmT m2 hm2drop
  · simp only [get_context, hs]
    rfl

/-- Witness for `get_context_window`: `sampleDB2` (three messages, window
size 2) yields the last two messages in chronological order and
`total_messages = 3`. -/
theorem get_context_window_witness :
    ∃ ctx, get_context sampleDB2 1 (some 2) = Except.ok ctx ∧
      ctx.messages.length ≤ 2 ∧
      ctx.messages.Pairwise
        (fun a b => a.sequence_number < b.sequence_number) ∧
      ctx.total_messages = (sessionMessages sampleDB2 1).length ∧
      (∀ m ∈ ctx.messages, m ∈ sessionMessages sampleDB2 1) ∧
      (∀ m ∈ ctx.messages, ∀ m2 ∈ sessionMessages sampleDB2 1,
        m2 ∉ ctx.messages → m2.sequence_number < m.sequence_number) :=
  (get_context_window sampleDB2 1
    { id := 1, user_id := 10, interaction_mode := "wisdom",
      started_at := 0, ended_at := none, summary := none,
      message_count := 3 }
    rfl (by decide)).1 2

end ConversationStore

namespace ReflectionGeneration

/-- C7: `generate_reflection` raises a ValueError when the candidate verse
list is empty or the mode is not socratic/wisdom/story, and a failing
generative backend propagates as an exception (the adapter never falls
back on its own); `generate_fallback_reflection` is a separate
deterministic template over the first candidate verse, independent of the
user input, the remaining verses and any backend. -/
theorem generate_reflection_error_contract :
    (∀ ui el ec mode hist br, mode ∈ promptModes →
      generate_reflection ui el ec [] mode hist br =
        Except.error (ReflectionError.valueError
          "At least one verse is required for reflection generation")) ∧
    (∀ ui el ec verses mode hist br, mode ∉ promptModes →
      generate_reflection ui el ec verses mode hist br =
        Except.error (ReflectionError.valueError
          ("Invalid interaction mode: " ++ mode ++
            ". Must be one of: ['socratic', 'wisdom', 'story']"))) ∧
    (∀ ui el ec v vs mode hist, mode ∈ promptModes →
      generate_reflection ui el ec (v :: vs) mode hist (Except.error ()) =
        Except.error (ReflectionError.apiError "Gemini API error")) ∧
    (∀ ui ui2 el v vs vs2,
      generate_fallback_reflection ui el (v :: vs) =
        generate_fallback_reflection ui2 el (v :: vs2)) := by
  refine ⟨?_, ?_, ?_, ?_⟩
  · intro ui el ec mode hist br h
    simp [generate_reflection, h]
  · intro ui el ec verses mode hist br h
    simp [generate_reflection, h]
  · intro ui el ec v vs mode hist h
    simp [generate_reflection, h]
  · intro ui ui2 el v vs vs2
    rfl

/-- Witness for `generate_reflection_error_contract` at concrete inputs. -/
theorem generate_reflection_error_contract_witness :
    generate_reflection "help" "joy" 1 [] "wisdom" [] (Except.ok "text") =
      Except.error (ReflectionError.valueError
        "At least one verse is required for reflection generation") ∧
    generate_reflection "help" "joy" 1 [sampleVerseDict] "invalid" []
        (Except.ok "text") =
      Except.error (ReflectionError.valueError
        ("Invalid interaction mode: " ++ "invalid" ++
          ". Must be one of: ['socratic', 'wisdom', 'story']")) ∧
    generate_reflection "help" "joy" 1 [sampleVerseDict] "wisdom" []
        (Except.error ()) =
      Except.error (ReflectionError.apiError "Gemini API error") ∧
    generate_fallback_reflection "help" (some "joy") [sampleVerseDict] =
      generate_fallback_reflection "other input" (some "joy")
        [sampleVerseDict, sampleVerseDict] := by
  refine ⟨?_, ?_, ?_, ?_⟩
  · exact generate_reflection_error_contract.1 "help" "joy" 1 "wisdom" []
      (Except.ok "text") (by decide)
  · exact generate_reflection_error_contract.2.1 "help" "joy" 1
      [sampleVerseDict] "invalid" [] (Except.ok "text") (by decide)
  · exact generate_reflection_error_contract.2.2.1 "help" "joy" 1
      sampleVerseDict [] "wisdom" [] (by decide)
  · exact generate_reflection_error_contract.2.2.2 "help" "other input"
      (some "joy") sampleVerseDict [] [sampleVerseDict]

end ReflectionGeneration

namespace Logging

theorem upsertFold_keys {ι κ ν : Type} [BEq κ] [LawfulBEq κ]
    (key : ι → κ) (init : ι → ν) (upd : ι → ν → ν) (l : List ι) :
    (upsertFold key init upd l).Pairwise (fun p q => p.1 ≠ q.1) ∧
    (∀ p ∈ upsertFold key init upd l, ∃ it ∈ l, p.1 = key it) ∧
    (∀ it ∈ l, ∃ p ∈ upsertFold key init upd l, p.1 = key it) := by
  induction l using List.reverseRecOn with
  | nil => simp [upsertFold]
  | append_singleton l x ih =>
    have hstep : upsertFold key init upd (l ++ [x]) =
        (if (upsertFold key init upd l).any (fun p => p.1 == key x) then
          (upsertFold key init upd l).map (fun p =>
            if p.1 == key x then (p.1, upd x p.2) else p)
        else upsertFold key init upd l ++ [(key x, init x)]) := by
      simp [upsertFold, List.foldl_append]
    obtain ⟨ih1, ih2, ih3⟩ := ih
    set A := upsertFold key init upd l with hA
    by_cases hany : A.any (fun p => p.1 == key x) = true
    · rw [hstep, if_pos hany]
      have hkey : ∀ p : κ × ν,
          (if p.1 == key x then (p.1, upd x p.2) else p).1 = p.1 := by
        intro p
        by_cases h : (p.1 == key x) = true <;> simp [h]
      refine ⟨?_, ?_, ?_⟩
      · rw [List.pairwise_map]
        exact ih1.imp (fun hab => by rw [hkey, hkey]; exact hab)
      · intro p hp
        obtain ⟨q, hq, rfl⟩ := List.mem_map.mp hp
        obtain ⟨it, hit, hkeq⟩ := ih2 q hq
        exact ⟨it, List.mem_append_left _ hit, by rw [hkey]; exact hkeq⟩
      · intro it hit
        rcases List.mem_append.mp hit with h | h
        · obtain ⟨p, hp, hpk⟩ := ih3 it h
          exact ⟨_, List.mem_map_of_mem _ hp, by rw [hkey]; exact hpk⟩
        · rcases List.mem_singleton.mp h with rfl
          obtain ⟨p, hp, hpk⟩ := List.any_eq_true.mp hany
          exact ⟨_, List.mem_map_of_mem _ hp, by rw [hkey]; exact eq_of_beq hpk⟩
    · rw [hstep, if_neg hany]
      have hfresh : ∀ p ∈ A, p.1 ≠ key x := by
        intro p hp heq
        exact hany (List.any_eq_true.mpr ⟨p, hp, by rw [heq]; exact beq_self_eq_true _⟩)
      refine ⟨?_, ?_, ?_⟩
      · rw [List.pairwise_append]
        refine ⟨ih1, List.pairwise_singleton _ _, ?_⟩
        intro p hp q hq
        rcases List.mem_singleton.mp hq with rfl
        exact hfresh p hp
      · intro p hp
        rcases List.mem_append.mp hp with h | h
        · obtain ⟨it, hit, hk⟩ := ih2 p h
          exact ⟨it, List.mem_append_left _ hit, hk⟩
        · rcases List.mem_singleton.mp h with rfl
          exact ⟨x, List.mem_append_right _ (List.mem_singleton_self x), rfl⟩
      · intro it hit
        rcases List.mem_append.mp hit with h | h
        · obtain ⟨p, hp, hk⟩ := ih3 it h
          exact ⟨p, List.mem_append_left _ hp, hk⟩
        · rcases List.mem_singleton.mp h with rfl
          exact ⟨(key it, init it),
            List.mem_append_right _ (List.mem_singleton_self _), rfl⟩

theorem weekdayName_mem (d : ℕ) : weekdayName d ∈ weekdayNames := by
  have h : d % 7 < 7 := Nat.mod_lt d (by norm_num)
  have hall : ∀ k ∈ List.range 7, weekdayNames.getD k "" ∈ weekdayNames := by
    decide
  exact hall (d % 7) (List.mem_range.mpr h)

theorem groupByWeekday_length_le (logs : List EmotionLog) :
    (groupByWeekday logs).length ≤ 7 := by
  obtain ⟨h1, h2, _⟩ := upsertFold_keys
    (fun log : EmotionLog => weekdayName log.log_date)
    (fun log => [log.dominant_emotion])
    (fun log ems => ems ++ [log.dominant_emotion]) logs
  set A := groupByWeekday logs with hA
  have hnodup : (A.map Prod.fst).Nodup := by
    show (A.map Prod.fst).Pairwise (fun a b => a ≠ b)
    rw [List.pairwise_map]
    exact h1
  have hsub : ∀ y ∈ A.map Prod.fst, y ∈ weekdayNames := by
    intro y hy
    obtain ⟨p, hp, rfl⟩ := List.mem_map.mp hy
    obtain ⟨it, _, hk⟩ := h2 p hp
    rw [hk]
    exact weekdayName_mem it.log_date
  have h3 : (A.map Prod.fst).toFinset.card = (A.map Prod.fst).length :=
    List.toFinset_card_of_nodup hnodup
  have h4 : (A.map Prod.fst).toFinset ⊆ weekdayNames.toFinset := by
    intro y hy
    rw [List.mem_toFinset] at hy ⊢
    exact hsub y hy
  have h5 : weekdayNames.toFinset.card ≤ weekdayNames.length :=
    weekdayNames.toFinset_card_le
  calc A.length = (A.map Prod.fst).length := (List.length_map A Prod.fst).symm
    _ = (A.map Prod.fst).toFinset.card := h3.symm
    _ ≤ weekdayNames.toFinset.card := Finset.card_le_card h4
    _ ≤ weekdayNames.length := h5
    _ = 7 := rfl

end Logging

namespace Logging

theorem freqFindings_spec (s : EmotionStats) :
    (freqFindings s).length ≤ 1 ∧
    ∀ f ∈ freqFindings s, f.ptype = "frequency" := by
  unfold freqFindings
  cases maxByCount s.emotion_counts with
  | none => simp
  | some mf =>
    by_cases h : 3 ≤ mf.2
    · refine ⟨by simp [h], ?_⟩
      intro f hf
      simp only [h, if_pos, List.mem_singleton] at hf
      rw [hf]
    · simp [h]

theorem temporalFindings_spec (s : EmotionStats) :
    (temporalFindings s).length ≤ s.daily_averages.length ∧
    ∀ f ∈ temporalFindings s, f.ptype = "temporal" := by
  constructor
  · exact List.length_filterMap_le _ _
  · intro f hf
    simp only [temporalFindings, List.mem_filterMap] at hf
    obtain ⟨p, _, he⟩ := hf
    by_cases h2 : 2 ≤ p.2.count
    · simp only [h2, if_pos] at he
      cases he
      rfl
    · simp [h2] at he

theorem trendFindings_spec (s : EmotionStats) :
    (trendFindings s).length ≤ 1 ∧
    ∀ f ∈ trendFindings s, f.ptype = "trend" := by
  unfold trendFindings
  split
  · simp
  · simp
  · dsimp only
    split_ifs <;> refine ⟨by simp, ?_⟩ <;> intro g hg <;>
      first
        | (rcases List.mem_singleton.mp hg with rfl; rfl)
        | simp at hg

theorem diversityFindings_spec (s : EmotionStats) :
    (diversityFindings s).length ≤ 1 ∧
    ∀ f ∈ diversityFindings s, f.ptype = "diversity" := by
  unfold diversityFindings
  dsimp only
  split_ifs <;> refine ⟨by simp, ?_⟩ <;> intro g hg <;>
    first
      | (rcases List.mem_singleton.mp hg with rfl; rfl)
      | simp at hg

theorem daily_averages_length_le (db : List EmotionLog) (uid : ℕ)
    (tr : String) (today : ℕ) :
    (get_emotion_stats db uid tr today).daily_averages.length ≤ 7 := by
  unfold get_emotion_stats
  dsimp only
  split_ifs
  · simp
  · exact le_trans (List.length_filterMap_le _ _) (groupByWeekday_length_le _)

theorem filter_eq_nil_of_ptype {l : List Finding} {t t' : String}
    (hl : ∀ f ∈ l, f.ptype = t) (hne : t ≠ t') :
    l.filter (fun f => f.ptype == t') = [] := by
  rw [List.filter_eq_nil_iff]
  intro f hf
  rw [hl f hf]
  simp [hne]

/-- C9 amended: the frequency, trend and diversity detectors each produce
at most one finding, but the temporal detector produces one finding per
weekday whose dominant emotion repeats, so up to 7; the list therefore
holds at most 7 findings of type "temporal", at most one of each other
type, and at most 10 findings in total. -/
theorem identify_patterns_detector_bounds (db : List EmotionLog) (uid : ℕ)
    (tr : String) (today : ℕ) :
    ((identify_patterns db uid tr today).filter
      (fun f => f.ptype == "frequency")).length ≤ 1 ∧
    ((identify_patterns db uid tr today).filter
      (fun f => f.ptype == "temporal")).length ≤ 7 ∧
    ((identify_patterns db uid tr today).filter
      (fun f => f.ptype == "trend")).length ≤ 1 ∧
    ((identify_patterns db uid tr today).filter
      (fun f => f.ptype == "diversity")).length ≤ 1 ∧
    (identify_patterns db uid tr today).length ≤ 10 := by
  set s := get_emotion_stats db uid tr today with hs
  have hps : identify_patterns db uid tr today =
      freqFindings s ++ temporalFindings s ++ trendFindings s ++
        diversityFindings s := rfl
  obtain ⟨hfl, hft⟩ := freqFindings_spec s
  obtain ⟨htl, htt⟩ := temporalFindings_spec s
  obtain ⟨hrl, hrt⟩ := trendFindings_spec s
  obtain ⟨hdl, hdt⟩ := diversityFindings_spec s
  have htl7 : (temporalFindings s).length ≤ 7 :=
    le_trans htl (daily_averages_length_le db uid tr today)
  rw [hps]
  refine ⟨?_, ?_, ?_, ?_, ?_⟩
  · simp only [List.filter_append, List.length_append]
    rw [filter_eq_nil_of_ptype htt (by decide),
        filter_eq_nil_of_ptype hrt (by decide),
        filter_eq_nil_of_ptype hdt (by decide)]
    simpa using le_trans (List.length_filter_le _ _) hfl
  · simp only [List.filter_append, List.length_append]
    rw [filter_eq_nil_of_ptype hft (by decide),
        filter_eq_nil_of_ptype hrt (by decide),
        filter_eq_nil_of_ptype hdt (by decide)]
    simpa using le_trans (List.length_filter_le _ _) htl7
  · simp only [List.filter_append, List.length_append]
    rw [filter_eq_nil_of_ptype hft (by decide),
        filter_eq_nil_of_ptype htt (by decide),
        filter_eq_nil_of_ptype hdt (by decide)]
    simpa using le_trans (List.length_filter_le _ _) hrl
  · simp only [List.filter_append, List.length_append]
    rw [filter_eq_nil_of_ptype hft (by decide),
        filter_eq_nil_of_ptype htt (by decide),
        filter_eq_nil_of_ptype hrt (by decide)]
    simpa using le_trans (List.length_filter_le _ _) hdl
  · simp only [List.length_append]
    omega

/-- Counterexample to C9 as stated: with two interactions on each of two
weekdays, `identify_patterns` returns two findings of type "temporal" —
more than one finding per detector type. -/
theorem identify_patterns_counterexample :
    (identify_patterns cexLogs 1 "week" 30).map (fun f => f.ptype) =
      ["temporal", "temporal"] ∧
    1 < ((identify_patterns cexLogs 1 "week" 30).filter
      (fun f => f.ptype == "temporal")).length := by
  constructor <;> decide

end Logging

namespace Logging

theorem mem_listSetUnion (v : String) (a b : List String) :
    v ∈ listSetUnion a b ↔ v ∈ a ∨ v ∈ b := by
  simp [listSetUnion, List.mem_dedup, List.mem_append]

theorem dailyFold_keys (M : List EmotionLog) :
    (dailyFold M).Pairwise (fun p q => p.1 ≠ q.1) ∧
    (∀ p ∈ dailyFold M, ∃ l ∈ M, p.1 = l.log_date) ∧
    (∀ l ∈ M, ∃ p ∈ dailyFold M, p.1 = l.log_date) :=
  upsertFold_keys (fun log : EmotionLog => log.log_date) initDayData
    (fun log v => { v with
      verse_ids := listSetUnion v.verse_ids log.verse_ids }) M

theorem dailyFold_values (M : List EmotionLog) :
    ∀ p ∈ dailyFold M,
      (∃ l0, M.find? (fun l => l.log_date == p.1) = some l0 ∧
        p.2.emotion = l0.dominant_emotion ∧ p.2.emoji = l0.emotion_emoji ∧
        p.2.color = l0.emotion_color ∧
        p.2.confidence = l0.emotion_confidence ∧
        p.2.user_input = l0.user_input ∧
        p.2.all_emotions = l0.all_emotions) ∧
      (∀ v, v ∈ p.2.verse_ids ↔
        ∃ l ∈ M, l.log_date = p.1 ∧ v ∈ l.verse_ids) := by
  induction M using List.reverseRecOn with
  | nil => simp [dailyFold, upsertFold]
  | append_singleton M x ih =>
    have hstep : dailyFold (M ++ [x]) =
        (if (dailyFold M).any (fun p => p.1 == x.log_date) then
          (dailyFold M).map (fun p =>
            if p.1 == x.log_date then
              (p.1, { p.2 with
                verse_ids := listSetUnion p.2.verse_ids x.verse_ids })
            else p)
        else dailyFold M ++ [(x.log_date, initDayData x)]) := by
      unfold dailyFold upsertFold
      rw [List.foldl_append]
      rfl
    obtain ⟨hpw, hcov1, hcov2⟩ := dailyFold_keys M
    by_cases hany : (dailyFold M).any (fun p => p.1 == x.log_date) = true
    · rw [hstep, if_pos hany]
      intro p hp
      obtain ⟨q, hq, rfl⟩ := List.mem_map.mp hp
      obtain ⟨⟨l0, hfind, hf1, hf2, hf3, hf4, hf5, hf6⟩, hvids⟩ := ih q hq
      by_cases hq1 : (q.1 == x.log_date) = true
      · have hq1' : q.1 = x.log_date := eq_of_beq hq1
        simp only [hq1, if_pos]
        constructor
        · refine ⟨l0, ?_, hf1, hf2, hf3, hf4, hf5, hf6⟩
          rw [List.find?_append, hfind]
          rfl
        · intro v
          rw [mem_listSetUnion, hvids v]
          constructor
          · rintro (⟨l, hl, hld, hlv⟩ | hv)
            · exact ⟨l, List.mem_append_left _ hl, hld, hlv⟩
            · exact ⟨x, List.mem_append_right _ (List.mem_singleton_self x),
                hq1'.symm, hv⟩
          · rintro ⟨l, hl, hld, hlv⟩
            rcases List.mem_append.mp hl with h | h
            · exact Or.inl ⟨l, h, hld, hlv⟩
            · rcases List.mem_singleton.mp h with rfl
              exact Or.inr hlv
      · have hq1' : q.1 ≠ x.log_date := by
          intro he
          rw [he] at hq1
          exact hq1 (beq_self_eq_true _)
        simp only [hq1, Bool.false_eq_true, if_neg, not_false_iff]
        constructor
        · refine ⟨l0, ?_, hf1, hf2, hf3, hf4, hf5, hf6⟩
          rw [List.find?_append, hfind]
          rfl
        · intro v
          rw [hvids v]
          constructor
          · rintro ⟨l, hl, hld, hlv⟩
            exact ⟨l, List.mem_append_left _ hl, hld, hlv⟩
          · rintro ⟨l, hl, hld, hlv⟩
            rcases List.mem_append.mp hl with h | h
            · exact ⟨l, h, hld, hlv⟩
            · rcases List.mem_singleton.mp h with rfl
              exact absurd hld.symm hq1'
    · rw [hstep, if_neg hany]
      have hnone : M.find? (fun l => l.log_date == x.log_date) = none := by
        rw [List.find?_eq_none]
        intro l hl hbeq
        obtain ⟨p, hp, hpk⟩ := hcov2 l hl
        have : (p.1 == x.log_date) = true := by
          rw [hpk]
          exact hbeq
        exact hany (List.any_eq_true.mpr ⟨p, hp, this⟩)
      intro p hp
      rcases List.mem_append.mp hp with h | h
      · obtain ⟨⟨l0, hfind, hf1, hf2, hf3, hf4, hf5, hf6⟩, hvids⟩ := ih p h
        have hp1 : p.1 ≠ x.log_date := by
          intro he
          obtain ⟨l, hl, hlk⟩ := hcov1 p h
          exact hany (List.any_eq_true.mpr ⟨p, h, by rw [he]; exact beq_self_eq_true _⟩)
        constructor
        · refine ⟨l0, ?_, hf1, hf2, hf3, hf4, hf5, hf6⟩
          rw [List.find?_append, hfind]
          rfl
        · intro v
          rw [hvids v]
          constructor
          · rintro ⟨l, hl, hld, hlv⟩
            exact ⟨l, List.mem_append_left _ hl, hld, hlv⟩
          · rintro ⟨l, hl, hld, hlv⟩
            rcases List.mem_append.mp hl with hh | hh
            · exact ⟨l, hh, hld, hlv⟩
            · rcases List.mem_singleton.mp hh with rfl
              exact absurd hld.symm hp1
      · rcases List.mem_singleton.mp h with rfl
        constructor
        · refine ⟨x, ?_, rfl, rfl, rfl, rfl, rfl, rfl⟩
          rw [List.find?_append, hnone]
          simp [List.find?_cons_of_pos]
        · intro v
          constructor
          · intro hv
            exact ⟨x, List.mem_append_right _ (List.mem_singleton_self x),
              rfl, hv⟩
          · rintro ⟨l, hl, hld, hlv⟩
            rcases List.mem_append.mp hl with hh | hh
            · exfalso
              have := List.find?_eq_none.mp hnone l hh
              exact this (by rw [hld]; exact beq_self_eq_true _)
            · rcases List.mem_singleton.mp hh with rfl
              exact hlv

theorem find?_pairwise {α : Type} {R : α → α → Prop} {p : α → Bool}
    {l : List α} {x : α} (hl : l.Pairwise R) (h : l.find? p = some x) :
    ∀ y ∈ l, p y = true → y = x ∨ R x y := by
  induction l with
  | nil => simp at h
  | cons a l ih =>
    rw [List.pairwise_cons] at hl
    by_cases hpa : p a = true
    · rw [List.find?_cons_of_pos (p := p) _ hpa] at h
      obtain rfl : a = x := by injection h
      intro y hy hpy
      rcases List.mem_cons.mp hy with rfl | hy2
      · exact Or.inl rfl
      · exact Or.inr (hl.1 y hy2)
    · rw [List.find?_cons_of_neg (p := p) _ hpa] at h
      intro y hy hpy
      rcases List.mem_cons.mp hy with rfl | hy2
      · exact absurd hpy hpa
      · exact ih hl.2 h y hy2 hpy

end Logging

namespace Logging

/-- C8: the mood calendar has at most one entry per calendar date; a date
appears among the entries exactly when the user has a log on it in range;
each entry's verse-id list is (as a set) the union of that day's logs'
verse ids; and each entry's emotion label, emoji, color and confidence
come from the most recently created log of that day (the hypothesis is
that creation timestamps distinguish same-day logs, which `created_at`
row timestamps do). -/
theorem get_mood_data_collapse (db : List EmotionLog) (uid sd ed : ℕ)
    (hdist : (moodLogs db uid sd ed).Pairwise
      (fun a b => a.log_date = b.log_date → a.created_at ≠ b.created_at)) :
    (get_mood_data db uid sd ed).Pairwise (fun a b => a.date ≠ b.date) ∧
    (∀ d, (∃ l ∈ moodLogs db uid sd ed, l.log_date = d) ↔
      (∃ en ∈ get_mood_data db uid sd ed, en.date = d)) ∧
    (∀ en ∈ get_mood_data db uid sd ed, ∀ v,
      v ∈ en.verse_ids ↔
        ∃ l ∈ moodLogs db uid sd ed, l.log_date = en.date ∧
          v ∈ l.verse_ids) ∧
    (∀ en ∈ get_mood_data db uid sd ed, ∃ l ∈ moodLogs db uid sd ed,
      l.log_date = en.date ∧ en.emotion = l.dominant_emotion ∧
      en.emoji = l.emotion_emoji ∧ en.color = l.emotion_color ∧
      en.confidence = l.emotion_confidence ∧
      ∀ l2 ∈ moodLogs db uid sd ed, l2.log_date = en.date →
        l2 = l ∨ l2.created_at < l.created_at) := by
  set L := moodLogs db uid sd ed with hL
  set S := List.insertionSort logDesc L with hS
  have hSL : S.Perm L := List.perm_insertionSort logDesc L
  have hsorted : S.Pairwise logDesc := List.sorted_insertionSort logDesc L
  have hdistS : S.Pairwise
      (fun a b => a.log_date = b.log_date → a.created_at ≠ b.created_at) :=
    (hSL.pairwise_iff (fun hab heq => (hab heq.symm).symm)).mpr hdist
  obtain ⟨hApw, hAcov1, hAcov2⟩ := dailyFold_keys S
  have hAval := dailyFold_values S
  set A := dailyFold S with hA
  set E := A.map mkEntry with hE
  have hget : get_mood_data db uid sd ed =
      List.insertionSort entryDateDesc E := rfl
  set R := List.insertionSort entryDateDesc E with hR
  have hRE : R.Perm E := List.perm_insertionSort entryDateDesc E
  have hdateE : ∀ p : ℕ × DayData, (mkEntry p).date = p.1 := fun _ => rfl
  refine ⟨?_, ?_, ?_, ?_⟩
  · rw [hget]
    refine (hRE.pairwise_iff (fun hab => hab.symm)).mpr ?_
    rw [hE, List.pairwise_map]
    exact hApw
  · intro d
    rw [hget]
    constructor
    · rintro ⟨l, hl, hld⟩
      obtain ⟨p, hp, hpk⟩ := hAcov2 l (hSL.mem_iff.mpr hl)
      refine ⟨mkEntry p, hRE.mem_iff.mpr (List.mem_map_of_mem _ hp), ?_⟩
      rw [hdateE, hpk, hld]
    · rintro ⟨en, hen, hend⟩
      obtain ⟨p, hp, rfl⟩ := List.mem_map.mp (hRE.mem_iff.mp hen)
      obtain ⟨l, hl, hlk⟩ := hAcov1 p hp
      refine ⟨l, hSL.mem_iff.mp hl, ?_⟩
      rw [← hend, hdateE, hlk]
  · intro en hen v
    rw [hget] at hen
    obtain ⟨p, hp, rfl⟩ := List.mem_map.mp (hRE.mem_iff.mp hen)
    have hv := (hAval p hp).2 v
    constructor
    · intro hvin
      obtain ⟨l, hl, hld, hlv⟩ := hv.mp hvin
      exact ⟨l, hSL.mem_iff.mp hl, by rw [hdateE]; exact hld, hlv⟩
    · rintro ⟨l, hl, hld, hlv⟩
      exact hv.mpr ⟨l, hSL.mem_iff.mpr hl, by rw [hdateE] at hld; exact hld, hlv⟩
  · intro en hen
    rw [hget] at hen
    obtain ⟨p, hp, rfl⟩ := List.mem_map.mp (hRE.mem_iff.mp hen)
    obtain ⟨⟨l0, hfind, hf1, hf2, hf3, hf4, _, _⟩, _⟩ := hAval p hp
    have hl0S : l0 ∈ S := List.mem_of_find?_eq_some hfind
    have hl0d : l0.log_date = p.1 := by
      have := List.find?_some hfind
      exact eq_of_beq this
    refine ⟨l0, hSL.mem_iff.mp hl0S, by rw [hdateE]; exact hl0d,
      hf1, hf2, hf3, hf4, ?_⟩
    intro l2 hl2 hl2d
    rw [hdateE] at hl2d
    have hl2S : l2 ∈ S := hSL.mem_iff.mpr hl2
    have hcomb : S.Pairwise (fun a b =>
        logDesc a b ∧ (a.log_date = b.log_date → a.created_at ≠ b.created_at)) :=
      hsorted.and hdistS
    have := find?_pairwise hcomb hfind l2 hl2S (by rw [hl2d]; exact beq_self_eq_true _)
    rcases this with h | ⟨hle, hne⟩
    · exact Or.inl h
    · right
      rcases hle with hlt | ⟨heq, hcle⟩
      · rw [hl0d, hl2d] at hlt
        exact absurd hlt (lt_irrefl _)
      · have hne2 : l2.created_at ≠ l0.created_at :=
          fun he => (hne (by rw [hl0d, hl2d])) he.symm
        exact lt_of_le_of_ne hcle hne2

/-- Witness for `get_mood_data_collapse` at the concrete `moodDB`, whose
day 5 holds two logs. -/
theorem get_mood_data_collapse_witness :
    (get_mood_data moodDB 1 0 10).Pairwise (fun a b => a.date ≠ b.date) ∧
    (∀ d, (∃ l ∈ moodLogs moodDB 1 0 10, l.log_date = d) ↔
      (∃ en ∈ get_mood_data moodDB 1 0 10, en.date = d)) ∧
    (∀ en ∈ get_mood_data moodDB 1 0 10, ∀ v,
      v ∈ en.verse_ids ↔
        ∃ l ∈ moodLogs moodDB 1 0 10, l.log_date = en.date ∧
          v ∈ l.verse_ids) ∧
    (∀ en ∈ get_mood_data moodDB 1 0 10, ∃ l ∈ moodLogs moodDB 1 0 10,
      l.log_date = en.date ∧ en.emotion = l.dominant_emotion ∧
      en.emoji = l.emotion_emoji ∧ en.color = l.emotion_color ∧
      en.confidence = l.emotion_confidence ∧
      ∀ l2 ∈ moodLogs moodDB 1 0 10, l2.log_date = en.date →
        l2 = l ∨ l2.created_at < l.created_at) :=
  get_mood_data_collapse moodDB 1 0 10 (by decide)

end Logging
